import Mathlib

/-!
Verification of the DailyTimeLimit input-activity monitor.

The repository has two near-duplicate variants:
- dailytimespend.py  : escalating-alert policy (max_alerts = 5) with periodic logging,
  embedded below in namespace DTS;
- dailytimespend1.py : immediate-stop policy, embedded below in namespace DTS1.

Modelling conventions:
- Timestamps and durations are integer microseconds (Int), matching Python's
  datetime/timedelta which store integer microseconds exactly.  Float comparisons in the
  source (total_seconds() against 1.0 and 0.1) are exact on integer microsecond values,
  so `gap.total_seconds() <= 1.0` is `gap ≤ 1000000` and `> 0.1` is `gap > 100000`.
- Side effects (alert sound request, log writes, terminal prints, hook cancellation)
  are recorded as an explicit list of Effect values returned by each handler.
- Fallible I/O (the unguarded file open/write in log_activity) is modelled with Except,
  parametrised by a boolean describing whether the environment lets the call succeed.
-/

/-- A side effect requested by the monitor while handling an event: play the alert
sound, append a record with the given label to the activity log, print a terminal
message, or cancel the input hook. -/
inductive Effect where
  | playAlert
  | logWrite (label : String)
  | printMsg
  | cancelHook
  deriving DecidableEq, Repr

/-- Kind of raw input event delivered by the hook manager. -/
inductive EventKind where
  | key
  | mouseButton
  | mouseMove
  deriving DecidableEq, Repr

/-- Numeric value of a decimal digit string, as Python's int() applied to the
digits captured by a regex group. -/
def digitsToNat (ds : List Char) : Nat :=
  ds.foldl (fun acc c => 10 * acc + (c.toNat - Char.toNat '0')) 0

/-- One optional component of the duration pattern, i.e. one group
of r'(?:(\d+)h)?(?:(\d+)m)?(?:(\d+)s)?' for a given unit letter.  Because \d+ is
greedy and can only consume digits, the regex engine's behaviour on such a group is
deterministic: take the maximal leading digit run; the group matches exactly when that
run is nonempty and is immediately followed by the unit letter (backtracking to a
shorter digit run can never expose the unit letter, and the later groups are all
optional so they never force backtracking into this one).  Returns the captured digit
run (none when the group did not participate) and the remaining input. -/
def component (unit : Char) (l : List Char) : Option (List Char) × List Char :=
  let p := l.span Char.isDigit
  match p.2 with
  | [] => (none, l)
  | c :: rest => if p.1 ≠ [] ∧ c = unit then (some p.1, rest) else (none, l)

/-- re.match of r'(?:(\d+)h)?(?:(\d+)m)?(?:(\d+)s)?' against the input.  Every group
is optional, so the pattern matches a (possibly empty) prefix of every string; the
result is the triple of captured groups.  The Option in the result type mirrors
re.match's ability to return None for patterns in general; for this pattern the match
always succeeds. -/
def reMatchTime (l : List Char) : Option (Option (List Char) × Option (List Char) × Option (List Char)) :=
  let ph := component 'h' l
  let pm := component 'm' ph.2
  let ps := component 's' pm.2
  some (ph.1, pm.1, ps.1)

/-- An exception parse_time_limit can raise: the explicit
ValueError "Invalid time format. Use format like 1h10m01s" raised when the regex does
not match, or the OverflowError raised by the timedelta constructor when the parsed
components exceed timedelta's range. -/
inductive ParseErr where
  | valueError
  | overflowError
  deriving DecidableEq, Repr

/-- timedelta.max in whole seconds: 999999999 days, 23 hours, 59 minutes, 59 seconds.
The constructor timedelta(hours=h, minutes=m, seconds=s) with non-negative integer
components succeeds exactly when 3600*h + 60*m + s is at most this value, and raises
OverflowError otherwise (the components come from digit strings, so the negative bound
cannot be hit). -/
def timedeltaMaxSeconds : Nat := 86399999999999

/-- InputMonitor.parse_time_limit (identical in both source files): match the duration
pattern; if the match failed raise the invalid-time-format ValueError (modelled as
Except.error ParseErr.valueError); otherwise each captured group (or 0 when absent)
gives hours/minutes/seconds and the result is the corresponding timedelta in
microseconds - unless the total exceeds timedelta's range, in which case the
constructor raises OverflowError.  int() on a digit run is modelled as unbounded; the
configurable conversion digit limit of recent CPython versions is out of scope. -/
def parse_time_limit (time_str : String) : Except ParseErr Int :=
  match reMatchTime time_str.data with
  | none => Except.error ParseErr.valueError
  | some (h, m, s) =>
      let secs : Nat :=
        3600 * (h.map digitsToNat).getD 0
          + 60 * (m.map digitsToNat).getD 0
          + (s.map digitsToNat).getD 0
      if secs ≤ timedeltaMaxSeconds then Except.ok ((secs * 1000000 : Nat) : Int)
      else Except.error ParseErr.overflowError

/-- How the process ends as seen from main: an explicit exit code (exit of main's
return value, with None counting as 0), or an uncaught exception escaping main, which
makes the interpreter print a traceback and exit nonzero. -/
inductive ProcExit where
  | code (n : Nat)
  | uncaught (e : ParseErr)
  deriving DecidableEq, Repr

/-- Refinement-side definition, following the spec's words for the configuration
format (section 6): a duration string conforms when it is exactly of the shape
N h N m N s with every component optional but order-fixed, i.e. when the three
optional components consume the whole string (all three omitted, the empty string,
is valid). -/
def conformsTimeFormat (time_str : String) : Bool :=
  let ph := component 'h' time_str.data
  let pm := component 'm' ph.2
  let ps := component 's' pm.2
  ps.2.isEmpty

/-- The acceptance test in handle_mouse_movement (identical in both variants): the
event at time t is forwarded exactly when last_activity is unset or more than 100ms
(100000 microseconds) in the past. -/
def mouseMoveGate (t : Int) (la : Option Int) : Bool :=
  match la with
  | none => true
  | some a => decide (100000 < t - a)

/-- Number of alert-sound requests in a list of effects. -/
def countAlerts (es : List Effect) : Nat :=
  es.countP (fun e => decide (e = Effect.playAlert))

namespace DTS

/-- State of InputMonitor in dailytimespend.py (escalating-alert variant).
Timestamps and durations are integer microseconds. -/
structure Monitor where
  start_time : Int
  last_activity : Option Int
  is_active : Bool
  total_active_time : Int
  time_limit : Int
  running : Bool
  alert_count : Nat
  max_alerts : Nat
  last_log_time : Int
  deriving DecidableEq, Repr

/-- InputMonitor.__init__: fresh session at time now with the given limit. -/
def init (now time_limit : Int) : Monitor :=
  { start_time := now, last_activity := none, is_active := false,
    total_active_time := 0, time_limit := time_limit, running := true,
    alert_count := 0, max_alerts := 5, last_log_time := now }

/-- check_time_limit (escalating policy): when the accumulated active time has reached
the limit, play an alert and log while alert_count < max_alerts; once alert_count has
reached max_alerts, stop the session, log "Session Ended", print and cancel the hook. -/
def check_time_limit (s : Monitor) : Monitor × List Effect :=
  if s.time_limit ≤ s.total_active_time then
    let r1 : Monitor × List Effect :=
      if s.alert_count < s.max_alerts then
        ({ s with alert_count := s.alert_count + 1 },
         [Effect.playAlert, Effect.logWrite "Time Limit Alert"])
      else (s, [])
    if r1.1.max_alerts ≤ r1.1.alert_count then
      ({ r1.1 with running := false },
       r1.2 ++ [Effect.logWrite "Session Ended - Time Limit Reached",
                Effect.printMsg, Effect.cancelHook])
    else r1
  else (s, [])

/-- The log interval from __init__: timedelta(seconds=2). -/
def log_interval : Int := 2000000

/-- check_log_update: write a "Regular Update" record and advance last_log_time when
at least log_interval has passed since the previous periodic log. -/
def check_log_update (now : Int) (s : Monitor) : Monitor × List Effect :=
  if log_interval ≤ now - s.last_log_time then
    ({ s with last_log_time := now }, [Effect.logWrite "Regular Update"])
  else (s, [])

/-- handle_keyboard, the locked update: on the first event only anchor last_activity;
otherwise credit the gap since the previous event when it is at most one second; then
record the event time, mark active, and run check_time_limit and check_log_update.
The two datetime.now() calls in the source happen inside one handler invocation and
are modelled by the single event timestamp t. -/
def handle_keyboard (t : Int) (s : Monitor) : Monitor × List Effect :=
  let s1 :=
    match s.last_activity with
    | none => s
    | some la =>
        if t - la ≤ 1000000 then
          { s with total_active_time := s.total_active_time + (t - la) }
        else s
  let s2 := { s1 with last_activity := some t, is_active := true }
  let r3 := check_time_limit s2
  let r4 := check_log_update t r3.1
  (r4.1, r3.2 ++ r4.2)

/-- handle_mouse_click: reuses the keyboard logic. -/
def handle_mouse_click (t : Int) (s : Monitor) : Monitor × List Effect :=
  handle_keyboard t s

/-- handle_mouse_movement: forward to handle_keyboard only when the debounce gate
accepts; otherwise the event is dropped with no state change and no effects. -/
def handle_mouse_movement (t : Int) (s : Monitor) : Monitor × List Effect :=
  if mouseMoveGate t s.last_activity then handle_keyboard t s else (s, [])

/-- Event dispatch as wired in __init__: KeyDown → handle_keyboard,
MouseAllButtonsDown → handle_mouse_click, MouseMovement → handle_mouse_movement. -/
def handleEvent (k : EventKind) (t : Int) (s : Monitor) : Monitor × List Effect :=
  match k with
  | EventKind.key => handle_keyboard t s
  | EventKind.mouseButton => handle_mouse_click t s
  | EventKind.mouseMove => handle_mouse_movement t s

/-- Process a list of accepted events (timestamps) through handle_keyboard,
concatenating the requested effects. -/
def runEvents (s : Monitor) (ts : List Int) : Monitor × List Effect :=
  match ts with
  | [] => (s, [])
  | t :: rest =>
      let r := handle_keyboard t s
      let r' := runEvents r.1 rest
      (r'.1, r.2 ++ r'.2)

/-- The durable record produced by log_activity: every field the source writes,
with the two float quantities (rate denominator and rate) as exact rationals. -/
structure LogRecord where
  label : String
  session_duration : Int
  active_time : Int
  limit : Int
  remaining_time : Int
  rate_denominator : Rat
  rate : Rat
  alerts_played : Nat
  alerts_max : Nat
  limit_reached : Bool
  deriving DecidableEq, Repr

/-- log_activity: remaining time is clamped at zero with max(timedelta(), ...); the
activity-rate denominator is the session duration in seconds floored at 1 via
max(1, ...); the status line says "Time Limit Reached" exactly when the clamped
remaining time is ≤ 0. -/
def log_activity (now : Int) (event_type : String) (s : Monitor) : LogRecord :=
  let remaining : Int := max 0 (s.time_limit - s.total_active_time)
  let dur : Int := now - s.start_time
  let den : Rat := max 1 ((dur : Rat) / 1000000)
  { label := event_type,
    session_duration := dur,
    active_time := s.total_active_time,
    limit := s.time_limit,
    remaining_time := remaining,
    rate_denominator := den,
    rate := ((s.total_active_time : Rat) / 1000000) / den * 100,
    alerts_played := s.alert_count,
    alerts_max := s.max_alerts,
    limit_reached := decide (remaining ≤ 0) }

/-- Outcome of play_alert: the notification sound, or the terminal-bell fallback. -/
inductive AlertOutcome where
  | sound
  | bell
  deriving DecidableEq, Repr

/-- play_alert: run paplay; the FileNotFoundError raised when paplay is missing is
caught and a bell character is printed instead.  Total: no failure escapes, and the
monitor state is untouched. -/
def play_alert (paplay_found : Bool) (s : Monitor) : Monitor × AlertOutcome :=
  (s, if paplay_found then AlertOutcome.sound else AlertOutcome.bell)

/-- The file write performed by log_activity: `with open(self.log_file, "a") as f:`
followed by f.write, with no surrounding try/except anywhere in the source, so a
failing open or write raises out of log_activity to its caller.  write_ok says whether
the environment lets the open/write succeed. -/
def log_write (write_ok : Bool) (s : Monitor) : Except Unit Monitor :=
  if write_ok then Except.ok s else Except.error ()

/-- The line rendered by one iteration of draw_progress_bar, with the progress ratio
as an exact rational. -/
structure ProgressLine where
  progress : Rat
  elapsed : Int
  remaining : Int
  total : Int
  active : Bool
  alerts_played : Nat
  deriving DecidableEq, Repr

/-- One iteration of the draw_progress_bar loop: none when the loop does not render
(running is false, or remaining ≤ 0 makes it break before the progress division);
otherwise the rendered line together with the state after the iteration clears
is_active. -/
def draw_progress_iter (s : Monitor) : Option (ProgressLine × Monitor) :=
  if s.running then
    if s.time_limit - s.total_active_time ≤ 0 then none
    else
      some ({ progress := (s.total_active_time : Rat) / (s.time_limit : Rat),
              elapsed := s.total_active_time,
              remaining := s.time_limit - s.total_active_time,
              total := s.time_limit,
              active := s.is_active,
              alerts_played := s.alert_count },
            { s with is_active := false })
  else none

/-- main's outcome as a function of the duration argument: a ValueError from
parse_time_limit is caught, printed as an error message and yields exit code 1; an
OverflowError is not caught by main (which handles only ValueError and
KeyboardInterrupt), so it escapes and the interpreter exits nonzero; otherwise the
monitor runs and the process exits 0 (normal completion, or KeyboardInterrupt which is
caught and also returns 0). -/
def main (time_arg : String) : ProcExit :=
  match parse_time_limit time_arg with
  | Except.error ParseErr.valueError => ProcExit.code 1
  | Except.error ParseErr.overflowError => ProcExit.uncaught ParseErr.overflowError
  | Except.ok _ => ProcExit.code 0

/-- Invariant tying termination to alert exhaustion in the escalating variant:
whenever running is false, the alert budget has been used up.  It holds initially
and is preserved by every update. -/
def AlertsExhaustedInv (s : Monitor) : Prop :=
  s.running = false → s.max_alerts ≤ s.alert_count

end DTS

namespace DTS1

/-- State of InputMonitor in dailytimespend1.py (immediate-stop variant). -/
structure Monitor where
  start_time : Int
  last_activity : Option Int
  is_active : Bool
  total_active_time : Int
  time_limit : Int
  running : Bool
  deriving DecidableEq, Repr

/-- __init__ of the immediate-stop variant. -/
def init (now time_limit : Int) : Monitor :=
  { start_time := now, last_activity := none, is_active := false,
    total_active_time := 0, time_limit := time_limit, running := true }

/-- check_time_limit (immediate policy): on the first update at or above the limit,
stop the session, play one alert, write one log record, print, and cancel the hook. -/
def check_time_limit (s : Monitor) : Monitor × List Effect :=
  if s.time_limit ≤ s.total_active_time then
    ({ s with running := false },
     [Effect.playAlert, Effect.logWrite "Active time",
      Effect.printMsg, Effect.cancelHook])
  else (s, [])

/-- handle_keyboard of the immediate-stop variant: same accounting as DTS, followed
only by check_time_limit (this variant has no periodic logging). -/
def handle_keyboard (t : Int) (s : Monitor) : Monitor × List Effect :=
  let s1 :=
    match s.last_activity with
    | none => s
    | some la =>
        if t - la ≤ 1000000 then
          { s with total_active_time := s.total_active_time + (t - la) }
        else s
  let s2 := { s1 with last_activity := some t, is_active := true }
  check_time_limit s2

/-- handle_mouse_click: reuses the keyboard logic. -/
def handle_mouse_click (t : Int) (s : Monitor) : Monitor × List Effect :=
  handle_keyboard t s

/-- handle_mouse_movement: identical debounce gate to the other variant. -/
def handle_mouse_movement (t : Int) (s : Monitor) : Monitor × List Effect :=
  if mouseMoveGate t s.last_activity then handle_keyboard t s else (s, [])

/-- Event dispatch as wired in __init__. -/
def handleEvent (k : EventKind) (t : Int) (s : Monitor) : Monitor × List Effect :=
  match k with
  | EventKind.key => handle_keyboard t s
  | EventKind.mouseButton => handle_mouse_click t s
  | EventKind.mouseMove => handle_mouse_movement t s

end DTS1

/-- Credited active time along a run: for each event, the gap since the previous one
when that gap is at most one second (1000000 microseconds), else nothing. -/
def gapSum (prev : Int) : List Int → Int
  | [] => 0
  | t :: ts => (if t - prev ≤ 1000000 then t - prev else 0) + gapSum t ts

/-- Sum over the inter-event gaps of a timestamp sequence of those gaps that are at
most one second (the first event has no predecessor and contributes nothing). -/
def gapSumFrom : List Int → Int
  | [] => 0
  | t :: ts => gapSum t ts

/-- The accounting branch shared by both handle_keyboard variants: with no previous
activity the total is unchanged; otherwise the gap since the previous activity is
added exactly when it is at most one second. -/
def credited (t : Int) (la : Option Int) (tot : Int) : Int :=
  match la with
  | none => tot
  | some a => if t - a ≤ 1000000 then tot + (t - a) else tot

/-- A session mid-run with a known previous activity instant, for the mouse-move
debounce instances: last activity at time 0, limit not yet reached. -/
def mmMonA : DTS.Monitor :=
  { start_time := 0, last_activity := some 0, is_active := false,
    total_active_time := 0, time_limit := 1000000000, running := true,
    alert_count := 0, max_alerts := 5, last_log_time := 0 }

/-- Immediate-variant counterpart of mmMonA. -/
def mmMonB : DTS1.Monitor :=
  { start_time := 0, last_activity := some 0, is_active := false,
    total_active_time := 0, time_limit := 1000000000, running := true }

/-- A running escalating-variant session already at its (zero) limit with no alerts
fired yet. -/
def escMon : DTS.Monitor :=
  { start_time := 0, last_activity := some 0, is_active := false,
    total_active_time := 0, time_limit := 0, running := true,
    alert_count := 0, max_alerts := 5, last_log_time := 0 }

/-- A running immediate-variant session already at its (zero) limit. -/
def immMon : DTS1.Monitor :=
  { start_time := 0, last_activity := some 0, is_active := false,
    total_active_time := 0, time_limit := 0, running := true }

/-- A stopped escalating-variant session with its alert budget exhausted, as any
reachable stopped state has. -/
def stopMon : DTS.Monitor :=
  { start_time := 0, last_activity := some 0, is_active := false,
    total_active_time := 2000000, time_limit := 1000000, running := false,
    alert_count := 5, max_alerts := 5, last_log_time := 0 }

/-- A running session a third of the way to its limit, with activity pending. -/
def renderMon : DTS.Monitor :=
  { start_time := 0, last_activity := some 1000000, is_active := true,
    total_active_time := 1000000, time_limit := 3000000, running := true,
    alert_count := 0, max_alerts := 5, last_log_time := 0 }

/-- The line one renderer iteration produces from renderMon. -/
def renderLine : DTS.ProgressLine :=
  { progress := 1 / 3, elapsed := 1000000, remaining := 2000000,
    total := 3000000, active := true, alerts_played := 0 }

/-- A running session for the division-safety instance. -/
def rateMon : DTS.Monitor :=
  { start_time := 0, last_activity := some 500000, is_active := false,
    total_active_time := 500000, time_limit := 2000000, running := true,
    alert_count := 0, max_alerts := 5, last_log_time := 0 }

/-- The line one renderer iteration produces from rateMon. -/
def rateLine : DTS.ProgressLine :=
  { progress := 1 / 4, elapsed := 500000, remaining := 1500000,
    total := 2000000, active := false, alerts_played := 0 }

/-! ## Helper lemmas about the update step -/

theorem DTS.check_time_limit_pres (s : DTS.Monitor) :
    (DTS.check_time_limit s).1.last_activity = s.last_activity ∧
    (DTS.check_time_limit s).1.is_active = s.is_active ∧
    (DTS.check_time_limit s).1.total_active_time = s.total_active_time ∧
    (DTS.check_time_limit s).1.time_limit = s.time_limit ∧
    (DTS.check_time_limit s).1.max_alerts = s.max_alerts ∧
    (DTS.check_time_limit s).1.start_time = s.start_time ∧
    (DTS.check_time_limit s).1.last_log_time = s.last_log_time := by
  simp only [DTS.check_time_limit]
  split_ifs <;> simp

theorem DTS.check_time_limit_count (s : DTS.Monitor) :
    (DTS.check_time_limit s).1.alert_count =
      (if s.time_limit ≤ s.total_active_time ∧ s.alert_count < s.max_alerts then
        s.alert_count + 1 else s.alert_count) := by
  simp only [DTS.check_time_limit]
  split_ifs <;> first | rfl | simp_all | omega

theorem DTS.check_time_limit_running (s : DTS.Monitor) :
    (DTS.check_time_limit s).1.running =
      (if s.time_limit ≤ s.total_active_time ∧
          s.max_alerts ≤ (if s.time_limit ≤ s.total_active_time ∧
            s.alert_count < s.max_alerts then s.alert_count + 1 else s.alert_count) then
        false else s.running) := by
  simp only [DTS.check_time_limit]
  split_ifs <;> first | rfl | simp_all | omega

theorem DTS.check_log_update_pres (now : Int) (s : DTS.Monitor) :
    (DTS.check_log_update now s).1.last_activity = s.last_activity ∧
    (DTS.check_log_update now s).1.is_active = s.is_active ∧
    (DTS.check_log_update now s).1.total_active_time = s.total_active_time ∧
    (DTS.check_log_update now s).1.time_limit = s.time_limit ∧
    (DTS.check_log_update now s).1.max_alerts = s.max_alerts ∧
    (DTS.check_log_update now s).1.start_time = s.start_time ∧
    (DTS.check_log_update now s).1.alert_count = s.alert_count ∧
    (DTS.check_log_update now s).1.running = s.running := by
  unfold DTS.check_log_update
  split_ifs <;> simp

theorem DTS.hk_last (t : Int) (s : DTS.Monitor) :
    (DTS.handle_keyboard t s).1.last_activity = some t := by
  unfold DTS.handle_keyboard
  cases h : s.last_activity <;>
    simp [h, (DTS.check_log_update_pres _ _).1, (DTS.check_time_limit_pres _).1]

theorem DTS.hk_active (t : Int) (s : DTS.Monitor) :
    (DTS.handle_keyboard t s).1.is_active = true := by
  unfold DTS.handle_keyboard
  cases h : s.last_activity <;>
    simp [h, (DTS.check_log_update_pres _ _).2.1, (DTS.check_time_limit_pres _).2.1]

theorem DTS.hk_total (t : Int) (s : DTS.Monitor) :
    (DTS.handle_keyboard t s).1.total_active_time =
      credited t s.last_activity s.total_active_time := by
  unfold DTS.handle_keyboard credited
  cases h : s.last_activity <;>
    simp [h, (DTS.check_log_update_pres _ _).2.2.1, (DTS.check_time_limit_pres _).2.2.1] <;>
    split_ifs <;>
    simp [(DTS.check_log_update_pres _ _).2.2.1, (DTS.check_time_limit_pres _).2.2.1]

theorem DTS.hk_limit (t : Int) (s : DTS.Monitor) :
    (DTS.handle_keyboard t s).1.time_limit = s.time_limit := by
  unfold DTS.handle_keyboard
  cases h : s.last_activity <;>
    simp [h, (DTS.check_log_update_pres _ _).2.2.2.1, (DTS.check_time_limit_pres _).2.2.2.1] <;>
    split_ifs <;>
    simp [(DTS.check_log_update_pres _ _).2.2.2.1, (DTS.check_time_limit_pres _).2.2.2.1]

theorem DTS.hk_max (t : Int) (s : DTS.Monitor) :
    (DTS.handle_keyboard t s).1.max_alerts = s.max_alerts := by
  unfold DTS.handle_keyboard
  cases h : s.last_activity <;>
    simp [h, (DTS.check_log_update_pres _ _).2.2.2.2.1, (DTS.check_time_limit_pres _).2.2.2.2.1] <;>
    split_ifs <;>
    simp [(DTS.check_log_update_pres _ _).2.2.2.2.1, (DTS.check_time_limit_pres _).2.2.2.2.1]

theorem DTS.hk_count (t : Int) (s : DTS.Monitor) :
    (DTS.handle_keyboard t s).1.alert_count =
      (if s.time_limit ≤ credited t s.last_activity s.total_active_time ∧
          s.alert_count < s.max_alerts then s.alert_count + 1 else s.alert_count) := by
  unfold DTS.handle_keyboard credited
  cases h : s.last_activity <;>
    simp [h, (DTS.check_log_update_pres _ _).2.2.2.2.2.2.1, DTS.check_time_limit_count] <;>
    split_ifs <;>
    simp_all [(DTS.check_log_update_pres _ _).2.2.2.2.2.2.1, DTS.check_time_limit_count]

theorem credited_none (t tot : Int) : credited t none tot = tot := rfl

theorem credited_some (t a tot : Int) :
    credited t (some a) tot = (if t - a ≤ 1000000 then tot + (t - a) else tot) := rfl

theorem credited_ge (t a tot : Int) (h : a ≤ t) : tot ≤ credited t (some a) tot := by
  rw [credited_some]
  split_ifs <;> omega

theorem DTS.hk_running (t : Int) (s : DTS.Monitor) :
    (DTS.handle_keyboard t s).1.running =
      (if s.time_limit ≤ credited t s.last_activity s.total_active_time ∧
          s.max_alerts ≤ (if s.time_limit ≤ credited t s.last_activity s.total_active_time ∧
            s.alert_count < s.max_alerts then s.alert_count + 1 else s.alert_count) then
        false else s.running) := by
  unfold DTS.handle_keyboard credited
  cases h : s.last_activity <;>
    simp [h, (DTS.check_log_update_pres _ _).2.2.2.2.2.2.2, DTS.check_time_limit_running] <;>
    split_ifs <;>
    simp_all [(DTS.check_log_update_pres _ _).2.2.2.2.2.2.2, DTS.check_time_limit_running]

theorem DTS.check_time_limit_effects (s : DTS.Monitor) :
    (DTS.check_time_limit s).2 =
      (if s.time_limit ≤ s.total_active_time then
        (if s.alert_count < s.max_alerts then
          (if s.max_alerts ≤ s.alert_count + 1 then
            [Effect.playAlert, Effect.logWrite "Time Limit Alert",
             Effect.logWrite "Session Ended - Time Limit Reached",
             Effect.printMsg, Effect.cancelHook]
          else [Effect.playAlert, Effect.logWrite "Time Limit Alert"])
        else
          (if s.max_alerts ≤ s.alert_count then
            [Effect.logWrite "Session Ended - Time Limit Reached",
             Effect.printMsg, Effect.cancelHook]
          else []))
      else []) := by
  simp only [DTS.check_time_limit]
  split_ifs <;> first | rfl | simp_all | omega

theorem DTS.check_log_update_effects (now : Int) (s : DTS.Monitor) :
    (DTS.check_log_update now s).2 =
      (if DTS.log_interval ≤ now - s.last_log_time then
        [Effect.logWrite "Regular Update"] else []) := by
  simp only [DTS.check_log_update]
  split_ifs <;> rfl

theorem DTS.hk_effects_char (t : Int) (s : DTS.Monitor) :
    (DTS.handle_keyboard t s).2 =
      (if s.time_limit ≤ credited t s.last_activity s.total_active_time then
        (if s.alert_count < s.max_alerts then
          (if s.max_alerts ≤ s.alert_count + 1 then
            [Effect.playAlert, Effect.logWrite "Time Limit Alert",
             Effect.logWrite "Session Ended - Time Limit Reached",
             Effect.printMsg, Effect.cancelHook]
          else [Effect.playAlert, Effect.logWrite "Time Limit Alert"])
        else
          (if s.max_alerts ≤ s.alert_count then
            [Effect.logWrite "Session Ended - Time Limit Reached",
             Effect.printMsg, Effect.cancelHook]
          else []))
      else []) ++
      (if DTS.log_interval ≤ t - s.last_log_time then
        [Effect.logWrite "Regular Update"] else []) := by
  cases h : s.last_activity with
  | none =>
      simp only [DTS.handle_keyboard, h, credited_none,
        DTS.check_time_limit_effects, DTS.check_log_update_effects]
      simp [(DTS.check_time_limit_pres _).2.2.2.2.2.2]
  | some la =>
      by_cases hc1 : t - la ≤ 1000000 <;>
        simp only [DTS.handle_keyboard, h, credited_some,
          DTS.check_time_limit_effects, DTS.check_log_update_effects, hc1,
          if_true, if_false, ite_true, ite_false] <;>
        simp [(DTS.check_time_limit_pres _).2.2.2.2.2.2, hc1]

theorem DTS.hk_effects_alert (t : Int) (s : DTS.Monitor)
    (hhit : s.time_limit ≤ credited t s.last_activity s.total_active_time)
    (hcan : s.alert_count < s.max_alerts) :
    countAlerts (DTS.handle_keyboard t s).2 = 1 ∧
    (s.max_alerts ≤ s.alert_count + 1 →
      Effect.logWrite "Session Ended - Time Limit Reached" ∈ (DTS.handle_keyboard t s).2 ∧
      Effect.printMsg ∈ (DTS.handle_keyboard t s).2 ∧
      Effect.cancelHook ∈ (DTS.handle_keyboard t s).2) := by
  rw [DTS.hk_effects_char, if_pos hhit, if_pos hcan]
  by_cases h5 : s.max_alerts ≤ s.alert_count + 1
  · rw [if_pos h5]
    refine ⟨?_, fun _ => ?_⟩
    · split_ifs <;> rfl
    · exact ⟨List.mem_append_left _ (by simp), List.mem_append_left _ (by simp),
        List.mem_append_left _ (by simp)⟩
  · rw [if_neg h5]
    refine ⟨?_, fun h => absurd h h5⟩
    split_ifs <;> rfl

theorem DTS.alert_step (t la : Int) (s : DTS.Monitor)
    (hla : s.last_activity = some la) (hle : la ≤ t)
    (htot : s.time_limit ≤ s.total_active_time)
    (hmax : s.max_alerts = 5) (hlt : s.alert_count < 5) :
    (DTS.handle_keyboard t s).1.last_activity = some t ∧
    (DTS.handle_keyboard t s).1.time_limit = s.time_limit ∧
    (DTS.handle_keyboard t s).1.max_alerts = 5 ∧
    s.total_active_time ≤ (DTS.handle_keyboard t s).1.total_active_time ∧
    (DTS.handle_keyboard t s).1.time_limit ≤ (DTS.handle_keyboard t s).1.total_active_time ∧
    (DTS.handle_keyboard t s).1.alert_count = s.alert_count + 1 ∧
    (DTS.handle_keyboard t s).1.running = (if 5 ≤ s.alert_count + 1 then false else s.running) ∧
    countAlerts (DTS.handle_keyboard t s).2 = 1 ∧
    (5 ≤ s.alert_count + 1 →
      Effect.logWrite "Session Ended - Time Limit Reached" ∈ (DTS.handle_keyboard t s).2 ∧
      Effect.printMsg ∈ (DTS.handle_keyboard t s).2 ∧
      Effect.cancelHook ∈ (DTS.handle_keyboard t s).2) := by
  have htot' : s.total_active_time ≤ credited t s.last_activity s.total_active_time := by
    rw [hla]
    exact credited_ge t la s.total_active_time hle
  have hc : s.time_limit ≤ credited t s.last_activity s.total_active_time :=
    le_trans htot htot'
  have hcount := DTS.hk_count t s
  rw [if_pos ⟨hc, by omega⟩] at hcount
  have hrun := DTS.hk_running t s
  rw [if_pos (⟨hc, by omega⟩ :
    s.time_limit ≤ credited t s.last_activity s.total_active_time ∧
      s.alert_count < s.max_alerts)] at hrun
  have heff := DTS.hk_effects_alert t s hc (by omega)
  refine ⟨DTS.hk_last t s, DTS.hk_limit t s, by rw [DTS.hk_max, hmax], ?_, ?_, hcount, ?_, heff.1,
    fun h5 => heff.2 (by omega)⟩
  · rw [DTS.hk_total]
    exact htot'
  · rw [DTS.hk_limit, DTS.hk_total]
    exact hc
  · by_cases h5 : 5 ≤ s.alert_count + 1
    · rw [if_pos h5]
      rw [if_pos ⟨hc, by omega⟩] at hrun
      exact hrun
    · rw [if_neg h5]
      rw [if_neg ?_] at hrun
      · exact hrun
      · rintro ⟨-, hm⟩
        omega

theorem DTS1.ctl1_pres (s : DTS1.Monitor) :
    (DTS1.check_time_limit s).1.last_activity = s.last_activity ∧
    (DTS1.check_time_limit s).1.is_active = s.is_active ∧
    (DTS1.check_time_limit s).1.total_active_time = s.total_active_time ∧
    (DTS1.check_time_limit s).1.time_limit = s.time_limit := by
  simp only [DTS1.check_time_limit]
  split_ifs <;> simp

theorem DTS1.ctl1_running (s : DTS1.Monitor) :
    (DTS1.check_time_limit s).1.running =
      (if s.time_limit ≤ s.total_active_time then false else s.running) := by
  simp only [DTS1.check_time_limit]
  split_ifs <;> simp

theorem DTS1.ctl1_effects (s : DTS1.Monitor) :
    (DTS1.check_time_limit s).2 =
      (if s.time_limit ≤ s.total_active_time then
        [Effect.playAlert, Effect.logWrite "Active time",
         Effect.printMsg, Effect.cancelHook]
      else []) := by
  simp only [DTS1.check_time_limit]
  split_ifs <;> rfl

theorem DTS1.hk1_last (t : Int) (s : DTS1.Monitor) :
    (DTS1.handle_keyboard t s).1.last_activity = some t := by
  unfold DTS1.handle_keyboard
  cases h : s.last_activity <;>
    simp [h, (DTS1.ctl1_pres _).1] <;>
    split_ifs <;>
    simp [(DTS1.ctl1_pres _).1]

theorem DTS1.hk1_active (t : Int) (s : DTS1.Monitor) :
    (DTS1.handle_keyboard t s).1.is_active = true := by
  unfold DTS1.handle_keyboard
  cases h : s.last_activity <;>
    simp [h, (DTS1.ctl1_pres _).2.1] <;>
    split_ifs <;>
    simp [(DTS1.ctl1_pres _).2.1]

theorem DTS1.hk1_total (t : Int) (s : DTS1.Monitor) :
    (DTS1.handle_keyboard t s).1.total_active_time =
      credited t s.last_activity s.total_active_time := by
  unfold DTS1.handle_keyboard credited
  cases h : s.last_activity <;>
    simp [h, (DTS1.ctl1_pres _).2.2.1] <;>
    split_ifs <;>
    simp [(DTS1.ctl1_pres _).2.2.1]

theorem DTS1.hk1_running (t : Int) (s : DTS1.Monitor) :
    (DTS1.handle_keyboard t s).1.running =
      (if s.time_limit ≤ credited t s.last_activity s.total_active_time then
        false else s.running) := by
  unfold DTS1.handle_keyboard credited
  cases h : s.last_activity <;>
    simp [h, DTS1.ctl1_running] <;>
    split_ifs <;>
    simp_all [DTS1.ctl1_running]

theorem DTS1.hk_effects (t : Int) (s : DTS1.Monitor) :
    (DTS1.handle_keyboard t s).2 =
      (if s.time_limit ≤ credited t s.last_activity s.total_active_time then
        [Effect.playAlert, Effect.logWrite "Active time",
         Effect.printMsg, Effect.cancelHook]
      else []) := by
  unfold DTS1.handle_keyboard credited
  cases h : s.last_activity <;>
    simp [h, DTS1.ctl1_effects] <;>
    split_ifs <;>
    simp_all [DTS1.ctl1_effects]

/-! ## Run-level accounting lemmas -/

theorem DTS.runEvents_append (l1 l2 : List Int) :
    ∀ s : DTS.Monitor,
      (DTS.runEvents s (l1 ++ l2)).1 = (DTS.runEvents (DTS.runEvents s l1).1 l2).1 := by
  induction l1 with
  | nil => intro s; rfl
  | cons t rest ih =>
      intro s
      simp only [List.cons_append, DTS.runEvents]
      exact ih (DTS.handle_keyboard t s).1

theorem DTS.runEvents_total_eq :
    ∀ (ts : List Int) (s : DTS.Monitor) (la : Int), s.last_activity = some la →
      (DTS.runEvents s ts).1.total_active_time = s.total_active_time + gapSum la ts := by
  intro ts
  induction ts with
  | nil => intro s la _; simp [DTS.runEvents, gapSum]
  | cons t rest ih =>
      intro s la h
      simp only [DTS.runEvents, gapSum]
      rw [ih (DTS.handle_keyboard t s).1 t (DTS.hk_last t s), DTS.hk_total, h, credited_some]
      split_ifs <;> ring

theorem DTS.runEvents_lastD :
    ∀ (ts : List Int) (s : DTS.Monitor) (la : Int), s.last_activity = some la →
      (DTS.runEvents s ts).1.last_activity = some (ts.getLastD la) := by
  intro ts
  induction ts with
  | nil => intro s la h; simpa [DTS.runEvents] using h
  | cons t rest ih =>
      intro s la h
      simp only [DTS.runEvents, List.getLastD_cons]
      exact ih (DTS.handle_keyboard t s).1 t (DTS.hk_last t s)

theorem DTS.run_total_mono :
    ∀ (l : List Int) (s : DTS.Monitor), List.Chain' (· ≤ ·) l →
      (∀ la t, s.last_activity = some la → l.head? = some t → la ≤ t) →
      s.total_active_time ≤ (DTS.runEvents s l).1.total_active_time := by
  intro l
  induction l with
  | nil => intro s _ _; exact le_refl _
  | cons t rest ih =>
      intro s hchain hhead
      simp only [DTS.runEvents]
      have step : s.total_active_time ≤ (DTS.handle_keyboard t s).1.total_active_time := by
        rw [DTS.hk_total]
        cases h : s.last_activity with
        | none => rw [credited_none]
        | some la => exact credited_ge t la _ (hhead la t h rfl)
      refine le_trans step (ih (DTS.handle_keyboard t s).1 (List.Chain'.tail hchain) ?_)
      intro la u hla hu
      rw [DTS.hk_last] at hla
      obtain rfl : t = la := by injection hla
      exact (List.chain'_cons'.mp hchain).1 u hu

theorem getLast?_cons_getLastD (a : Int) (r : List Int) :
    (a :: r).getLast? = some (r.getLastD a) := by
  induction r generalizing a with
  | nil => rfl
  | cons b r ih => rw [List.getLast?_cons_cons, ih, List.getLastD_cons]

theorem gapSum_nonneg :
    ∀ (ts : List Int) (prev : Int), List.Chain' (· ≤ ·) (prev :: ts) → 0 ≤ gapSum prev ts := by
  intro ts
  induction ts with
  | nil => intro prev _; simp [gapSum]
  | cons t rest ih =>
      intro prev h
      have h1 : prev ≤ t := (List.chain'_cons'.mp h).1 t rfl
      have h2 : 0 ≤ gapSum t rest := ih t (List.Chain'.tail h)
      simp only [gapSum]
      split_ifs <;> omega

/-! ## Claim theorems -/

/-- C1: for every accepted event at time t, in both variants, the update records t as
last_activity and sets is_active; the accumulated time changes by exactly the credited
gap: nothing on the first event (last_activity unset), the gap when it is at most one
second, nothing when it exceeds one second. -/
theorem c1_update_semantics (t : Int) (s : DTS.Monitor) (q : DTS1.Monitor) :
    (DTS.handle_keyboard t s).1.last_activity = some t ∧
    (DTS.handle_keyboard t s).1.is_active = true ∧
    (DTS.handle_keyboard t s).1.total_active_time =
      credited t s.last_activity s.total_active_time ∧
    (DTS1.handle_keyboard t q).1.last_activity = some t ∧
    (DTS1.handle_keyboard t q).1.is_active = true ∧
    (DTS1.handle_keyboard t q).1.total_active_time =
      credited t q.last_activity q.total_active_time :=
  ⟨DTS.hk_last t s, DTS.hk_active t s, DTS.hk_total t s,
   DTS1.hk1_last t q, DTS1.hk1_active t q, DTS1.hk1_total t q⟩

/-- C3 counterexample: the string "abc" does not conform to the duration format, yet
parse_time_limit returns the zero duration instead of raising the invalid-time-format
ValueError: the all-optional pattern matches every string, so the error branch never
runs. -/
theorem c3_counterexample :
    conformsTimeFormat "abc" = false ∧ parse_time_limit "abc" = Except.ok 0 :=
  ⟨rfl, rfl⟩

/-- C3 amended: parse_time_limit never raises the distinct invalid-time-format
ValueError: the all-optional regex matches every string, so that branch is dead code
and main's handled print-and-exit-1 path for it is never taken; when parsing succeeds
the process exits 0, and the one failure parse_time_limit can raise is the timedelta
constructor's OverflowError for a conforming string whose components exceed
timedelta's range, which main does not catch, so the process exits nonzero through an
uncaught exception rather than the handled path. -/
theorem c3_no_invalid_format_error (time_str : String) :
    parse_time_limit time_str ≠ Except.error ParseErr.valueError ∧
    (∀ v, parse_time_limit time_str = Except.ok v → DTS.main time_str = ProcExit.code 0) ∧
    (parse_time_limit time_str = Except.error ParseErr.overflowError →
      DTS.main time_str = ProcExit.uncaught ParseErr.overflowError) := by
  refine ⟨?_, ?_, ?_⟩
  · intro hbad
    rcases hr : reMatchTime time_str.data with - | ⟨h, m, s⟩
    · have hs : (reMatchTime time_str.data).isSome = true := rfl
      rw [hr] at hs
      simp at hs
    · simp only [parse_time_limit, hr] at hbad
      split_ifs at hbad <;> simp_all
  · intro v hv
    simp only [DTS.main, hv]
  · intro he
    simp only [DTS.main, he]

/-- C3 witness: the conforming string of 24000000000 hours exceeds timedelta's range
and escapes as an uncaught OverflowError, "2h" parses and exits 0, and "abc" does not
produce the invalid-time-format error. -/
theorem c3_no_invalid_format_error_witness :
    parse_time_limit "24000000000h" = Except.error ParseErr.overflowError ∧
    DTS.main "24000000000h" = ProcExit.uncaught ParseErr.overflowError ∧
    parse_time_limit "2h" = Except.ok 7200000000 ∧
    DTS.main "2h" = ProcExit.code 0 ∧
    parse_time_limit "abc" ≠ Except.error ParseErr.valueError :=
  ⟨rfl, (c3_no_invalid_format_error "24000000000h").2.2 rfl,
   rfl, (c3_no_invalid_format_error "2h").2.1 7200000000 rfl,
   (c3_no_invalid_format_error "abc").1⟩

/-- C4: parse_time_limit maps "1h10m1s" to 1 hour 10 minutes 1 second, the empty
string to the zero duration, "10m" to 10 minutes, and the malformed "abc" (which still
matches the optional-groups pattern) to the zero duration; each component is optional
and a missing component defaults to 0 ("1h" and "10m1s" as further instances). -/
theorem c4_parse_examples :
    parse_time_limit "1h10m1s" = Except.ok 4201000000 ∧
    parse_time_limit "" = Except.ok 0 ∧
    parse_time_limit "10m" = Except.ok 600000000 ∧
    parse_time_limit "abc" = Except.ok 0 ∧
    parse_time_limit "1h" = Except.ok 3600000000 ∧
    parse_time_limit "10m1s" = Except.ok 601000000 :=
  ⟨rfl, rfl, rfl, rfl, rfl, rfl⟩

/-- C7: in both variants, Key and MouseButton events are forwarded unconditionally to
the keyboard update; a MouseMove event is forwarded exactly when last_activity is
unset or more than 100ms before the event, and otherwise it is dropped with no state
change and no side effect. -/
theorem c7_mouse_debounce (t : Int) (s : DTS.Monitor) (q : DTS1.Monitor) :
    DTS.handleEvent EventKind.key t s = DTS.handle_keyboard t s ∧
    DTS.handleEvent EventKind.mouseButton t s = DTS.handle_keyboard t s ∧
    (mouseMoveGate t s.last_activity = true ↔
      s.last_activity = none ∨ ∃ la, s.last_activity = some la ∧ 100000 < t - la) ∧
    (mouseMoveGate t s.last_activity = true →
      DTS.handleEvent EventKind.mouseMove t s = DTS.handle_keyboard t s) ∧
    (mouseMoveGate t s.last_activity = false →
      DTS.handleEvent EventKind.mouseMove t s = (s, [])) ∧
    DTS1.handleEvent EventKind.key t q = DTS1.handle_keyboard t q ∧
    DTS1.handleEvent EventKind.mouseButton t q = DTS1.handle_keyboard t q ∧
    (mouseMoveGate t q.last_activity = true →
      DTS1.handleEvent EventKind.mouseMove t q = DTS1.handle_keyboard t q) ∧
    (mouseMoveGate t q.last_activity = false →
      DTS1.handleEvent EventKind.mouseMove t q = (q, [])) := by
  refine ⟨rfl, rfl, ?_, ?_, ?_, rfl, rfl, ?_, ?_⟩
  · cases h : s.last_activity <;> simp [mouseMoveGate, h]
  · intro h
    simp [DTS.handleEvent, DTS.handle_mouse_movement, h]
  · intro h
    simp [DTS.handleEvent, DTS.handle_mouse_movement, h]
  · intro h
    simp [DTS1.handleEvent, DTS1.handle_mouse_movement, h]
  · intro h
    simp [DTS1.handleEvent, DTS1.handle_mouse_movement, h]

/-- C7 witness: a MouseMove 50ms after the last activity is dropped, one 150ms after
is accepted, instantiating the gate at the session mmMonA. -/
theorem c7_mouse_debounce_witness :
    DTS.handleEvent EventKind.mouseMove 50000 mmMonA = (mmMonA, []) ∧
    DTS.handleEvent EventKind.mouseMove 150000 mmMonA = DTS.handle_keyboard 150000 mmMonA :=
  ⟨(c7_mouse_debounce 50000 mmMonA mmMonB).2.2.2.2.1 (by decide),
   (c7_mouse_debounce 150000 mmMonA mmMonB).2.2.2.1 (by decide)⟩

/-- C9 counterexample: a failing log write is not swallowed: log_activity performs its
file open/write without any try/except, so the failure propagates to the caller as an
exception rather than being silently skipped. -/
theorem c9_counterexample :
    DTS.log_write false (DTS.init 0 0) = Except.error () := rfl

/-- C9 amended: the alert-sound side of the claim holds: play_alert never fails and
never touches the session state, falling back to the terminal bell when the audio
utility is missing; the log-write side does not: when the write fails the error
propagates to the caller (though the state, in particular running, is not modified by
the write itself, which returns the state unchanged on success). -/
theorem c9_side_effect_failures (found ok : Bool) (s : DTS.Monitor) :
    (DTS.play_alert found s).1 = s ∧
    (found = false → (DTS.play_alert found s).2 = DTS.AlertOutcome.bell) ∧
    (found = true → (DTS.play_alert found s).2 = DTS.AlertOutcome.sound) ∧
    DTS.log_write true s = Except.ok s ∧
    (ok = false → DTS.log_write ok s = Except.error ()) := by
  refine ⟨rfl, ?_, ?_, rfl, ?_⟩
  · intro h
    simp [DTS.play_alert, h]
  · intro h
    simp [DTS.play_alert, h]
  · intro h
    simp [DTS.log_write, h]

/-- C9 witness: the amended claim at a concrete session with the audio utility
missing and the log write failing. -/
theorem c9_side_effect_failures_witness :
    (DTS.play_alert false (DTS.init 0 0)).2 = DTS.AlertOutcome.bell ∧
    DTS.log_write false (DTS.init 0 0) = Except.error () :=
  ⟨(c9_side_effect_failures false false (DTS.init 0 0)).2.1 rfl,
   (c9_side_effect_failures false false (DTS.init 0 0)).2.2.2.2 rfl⟩

/-- C5: for any non-decreasing sequence of accepted-event timestamps processed from a
fresh session, total_active_time never decreases across updates (here: the total after
any prefix is at most the total after the whole sequence), and the final total never
exceeds the sum of the inter-event gaps that are at most one second. -/
theorem c5_monotone_and_bounded (t0 tl : Int) (l1 l2 : List Int)
    (hchain : List.Chain' (· ≤ ·) (l1 ++ l2)) :
    (DTS.runEvents (DTS.init t0 tl) l1).1.total_active_time ≤
      (DTS.runEvents (DTS.init t0 tl) (l1 ++ l2)).1.total_active_time ∧
    (DTS.runEvents (DTS.init t0 tl) (l1 ++ l2)).1.total_active_time ≤
      gapSumFrom (l1 ++ l2) := by
  constructor
  · rw [DTS.runEvents_append]
    apply DTS.run_total_mono l2 _ (List.chain'_append.mp hchain).2.1
    intro la u hla hu
    cases hl1 : l1 with
    | nil =>
        rw [hl1] at hla
        simp [DTS.runEvents, DTS.init] at hla
    | cons a r =>
        rw [hl1] at hla
        have hstep : (DTS.runEvents (DTS.init t0 tl) (a :: r)).1.last_activity
            = some (r.getLastD a) := by
          simp only [DTS.runEvents]
          exact DTS.runEvents_lastD r _ a (DTS.hk_last a (DTS.init t0 tl))
        rw [hstep] at hla
        obtain rfl : r.getLastD a = la := Option.some.inj hla
        have h3 := (List.chain'_append.mp hchain).2.2
        refine h3 (r.getLastD a) ?_ u (Option.mem_def.mpr hu)
    
        rw [hl1, getLast?_cons_getLastD]
        exact Option.mem_def.mpr rfl
  · cases hl : (l1 ++ l2) with
    | nil => simp [DTS.runEvents, gapSumFrom, DTS.init]
    | cons a r =>
        simp only [DTS.runEvents, gapSumFrom]
        rw [DTS.runEvents_total_eq r (DTS.handle_keyboard a (DTS.init t0 tl)).1 a
          (DTS.hk_last a _), DTS.hk_total]
        simp [DTS.init, credited]

/-- C5 witness: the property instantiated on four events 0s, 0.5s, 2s, 2.1s: only the
0.5s and 0.1s gaps are credited, the 1.5s idle gap is not. -/
theorem c5_monotone_and_bounded_witness :
    List.Chain' (· ≤ ·) ([0, 500000] ++ [2000000, 2100000]) ∧
    ((DTS.runEvents (DTS.init 0 1000000000) [0, 500000]).1.total_active_time ≤
      (DTS.runEvents (DTS.init 0 1000000000)
        ([0, 500000] ++ [2000000, 2100000])).1.total_active_time ∧
     (DTS.runEvents (DTS.init 0 1000000000)
        ([0, 500000] ++ [2000000, 2100000])).1.total_active_time ≤
      gapSumFrom ([0, 500000] ++ [2000000, 2100000])) :=
  ⟨by norm_num [List.chain'_cons],
   c5_monotone_and_bounded 0 1000000000 [0, 500000] [2000000, 2100000]
     (by norm_num [List.chain'_cons])⟩

/-- C6 counterexample: a reachable stopped state (five events at a zero limit exhaust
the alert budget and set running to false) in which one further keyboard event still
mutates total_active_time: the handler has no guard on running. -/
theorem c6_counterexample :
    (DTS.runEvents (DTS.init 0 0) [0, 100000, 200000, 300000, 400000]).1.running = false ∧
    (DTS.handle_keyboard 900000
        (DTS.runEvents (DTS.init 0 0) [0, 100000, 200000, 300000, 400000]).1).1.total_active_time ≠
      (DTS.runEvents (DTS.init 0 0) [0, 100000, 200000, 300000, 400000]).1.total_active_time := by
  decide

/-- C6 amended: once running is false no update mutates alert_count, and running never
reverts to true, in every state satisfying the invariant that a stopped session has an
exhausted alert budget; that invariant holds initially and is preserved by every
update.  total_active_time, by contrast, has no such protection (see the
counterexample): the handler itself never consults running. -/
theorem c6_stopped_no_alert_mutation (t t0 tl : Int) (s : DTS.Monitor) :
    DTS.AlertsExhaustedInv (DTS.init t0 tl) ∧
    (DTS.AlertsExhaustedInv s → DTS.AlertsExhaustedInv (DTS.handle_keyboard t s).1) ∧
    (s.running = false → DTS.AlertsExhaustedInv s →
      (DTS.handle_keyboard t s).1.alert_count = s.alert_count ∧
      (DTS.handle_keyboard t s).1.running = false) := by
  refine ⟨?_, ?_, ?_⟩
  · intro h
    simp [DTS.init] at h
  · intro hInv hrun
    rw [DTS.hk_running] at hrun
    rw [DTS.hk_max, DTS.hk_count]
    by_cases hc : s.time_limit ≤ credited t s.last_activity s.total_active_time ∧
        s.alert_count < s.max_alerts
    · rw [if_pos hc]
      rw [if_pos hc] at hrun
      by_cases hm : s.max_alerts ≤ s.alert_count + 1
      · exact hm
      · rw [if_neg (fun hand => hm hand.2)] at hrun
        have := hInv hrun
        omega
    · rw [if_neg hc]
      rw [if_neg hc] at hrun
      by_cases hm2 : s.time_limit ≤ credited t s.last_activity s.total_active_time ∧
          s.max_alerts ≤ s.alert_count
      · exact hm2.2
      · rw [if_neg hm2] at hrun
        exact hInv hrun
  · intro hrunf hInv
    have hmax_le := hInv hrunf
    constructor
    · have hne : ¬(s.time_limit ≤ credited t s.last_activity s.total_active_time ∧
          s.alert_count < s.max_alerts) := by
        rintro ⟨-, hlt⟩
        omega
      rw [DTS.hk_count, if_neg hne]
    · rw [DTS.hk_running]
      split_ifs <;> first | rfl | exact hrunf

/-- C6 witness: the amended claim at the stopped session stopMon and an event half a
second later. -/
theorem c6_stopped_no_alert_mutation_witness :
    (stopMon.running = false ∧ DTS.AlertsExhaustedInv stopMon) ∧
    ((DTS.handle_keyboard 2500000 stopMon).1.alert_count = stopMon.alert_count ∧
     (DTS.handle_keyboard 2500000 stopMon).1.running = false) :=
  ⟨⟨rfl, fun _ => by decide⟩,
   (c6_stopped_no_alert_mutation 2500000 0 0 stopMon).2.2 rfl (fun _ => by decide)⟩

theorem countAlerts_append (a b : List Effect) :
    countAlerts (a ++ b) = countAlerts a + countAlerts b :=
  List.countP_append _ _ _

theorem countAlerts_nil : countAlerts [] = 0 := rfl

/-- C2: escalating policy: from a running session at or above its limit with a fresh
alert budget (max_alerts = 5), five updates with non-decreasing timestamps play
exactly five alerts (one per update, five in total), leave alert_count at 5, keep the
session running through the fourth update, and on the fifth stop it (running = false)
while emitting the "Session Ended" log record, the terminal message and the hook
cancellation.  Immediate policy: the first update at or above the limit stops the
session and emits exactly one alert, one log write, the terminal message and the hook
cancellation. -/
theorem c2_alert_policies (s : DTS.Monitor) (la t1 t2 t3 t4 t5 : Int)
    (q : DTS1.Monitor) (lb u : Int)
    (hla : s.last_activity = some la) (h01 : la ≤ t1) (h12 : t1 ≤ t2) (h23 : t2 ≤ t3)
    (h34 : t3 ≤ t4) (h45 : t4 ≤ t5)
    (htot : s.time_limit ≤ s.total_active_time) (hcnt : s.alert_count = 0)
    (hmax : s.max_alerts = 5) (hrun : s.running = true)
    (hqla : q.last_activity = some lb) (hqle : lb ≤ u)
    (hqtot : q.time_limit ≤ q.total_active_time) :
    countAlerts (DTS.runEvents s [t1, t2, t3, t4, t5]).2 = 5 ∧
    (DTS.runEvents s [t1, t2, t3, t4, t5]).1.alert_count = 5 ∧
    (DTS.runEvents s [t1, t2, t3, t4]).1.running = true ∧
    (DTS.runEvents s [t1, t2, t3, t4]).1.alert_count = 4 ∧
    (DTS.runEvents s [t1, t2, t3, t4, t5]).1.running = false ∧
    Effect.logWrite "Session Ended - Time Limit Reached" ∈
      (DTS.handle_keyboard t5 (DTS.runEvents s [t1, t2, t3, t4]).1).2 ∧
    Effect.printMsg ∈ (DTS.handle_keyboard t5 (DTS.runEvents s [t1, t2, t3, t4]).1).2 ∧
    Effect.cancelHook ∈ (DTS.handle_keyboard t5 (DTS.runEvents s [t1, t2, t3, t4]).1).2 ∧
    (DTS1.handle_keyboard u q).1.running = false ∧
    countAlerts (DTS1.handle_keyboard u q).2 = 1 ∧
    (DTS1.handle_keyboard u q).2 =
      [Effect.playAlert, Effect.logWrite "Active time",
       Effect.printMsg, Effect.cancelHook] := by
  obtain ⟨hL1, hTL1, hM1, hMono1, hHit1, hC1, hR1, hA1, hE1⟩ :=
    DTS.alert_step t1 la s hla h01 htot hmax (by omega)
  obtain ⟨hL2, hTL2, hM2, hMono2, hHit2, hC2, hR2, hA2, hE2⟩ :=
    DTS.alert_step t2 t1 _ hL1 h12 hHit1 hM1 (by omega)
  obtain ⟨hL3, hTL3, hM3, hMono3, hHit3, hC3, hR3, hA3, hE3⟩ :=
    DTS.alert_step t3 t2 _ hL2 h23 hHit2 hM2 (by omega)
  obtain ⟨hL4, hTL4, hM4, hMono4, hHit4, hC4, hR4, hA4, hE4⟩ :=
    DTS.alert_step t4 t3 _ hL3 h34 hHit3 hM3 (by omega)
  obtain ⟨hL5, hTL5, hM5, hMono5, hHit5, hC5, hR5, hA5, hE5⟩ :=
    DTS.alert_step t5 t4 _ hL4 h45 hHit4 hM4 (by omega)
  have hEnd := hE5 (by omega)
  have hq_total : q.time_limit ≤ credited u q.last_activity q.total_active_time := by
    rw [hqla]
    exact le_trans hqtot (credited_ge u lb _ hqle)
  simp only [DTS.runEvents]
  refine ⟨?_, ?_, ?_, ?_, ?_, hEnd.1, hEnd.2.1, hEnd.2.2, ?_, ?_, ?_⟩
  · simp only [countAlerts_append, countAlerts_nil, hA1, hA2, hA3, hA4, hA5]
  · omega
  · rw [hR4, if_neg (by omega), hR3, if_neg (by omega), hR2, if_neg (by omega),
      hR1, if_neg (by omega)]
    exact hrun
  · omega
  · rw [hR5, if_pos (by omega)]
  · rw [DTS1.hk1_running, if_pos hq_total]
  · rw [DTS1.hk_effects, if_pos hq_total]
    rfl
  · rw [DTS1.hk_effects, if_pos hq_total]

/-- C2 witness: the two policies instantiated at concrete sessions escMon and immMon
already at their (zero) limits with events every 0.1s. -/
theorem c2_alert_policies_witness :
    (escMon.last_activity = some 0 ∧ escMon.time_limit ≤ escMon.total_active_time ∧
     escMon.alert_count = 0 ∧ escMon.max_alerts = 5 ∧ escMon.running = true ∧
     immMon.last_activity = some 0 ∧ immMon.time_limit ≤ immMon.total_active_time) ∧
    (countAlerts (DTS.runEvents escMon [100000, 200000, 300000, 400000, 500000]).2 = 5 ∧
     (DTS.runEvents escMon [100000, 200000, 300000, 400000, 500000]).1.alert_count = 5 ∧
     (DTS.runEvents escMon [100000, 200000, 300000, 400000]).1.running = true ∧
     (DTS.runEvents escMon [100000, 200000, 300000, 400000, 500000]).1.running = false ∧
     (DTS1.handle_keyboard 100000 immMon).1.running = false ∧
     countAlerts (DTS1.handle_keyboard 100000 immMon).2 = 1) := by
  have h := c2_alert_policies escMon 0 100000 200000 300000 400000 500000 immMon 0 100000
    rfl (by decide) (by decide) (by decide) (by decide) (by decide) (by decide) rfl rfl rfl
    rfl (by decide) (by decide)
  exact ⟨⟨rfl, by decide, rfl, rfl, rfl, rfl, by decide⟩,
    h.1, h.2.1, h.2.2.1, h.2.2.2.2.1, h.2.2.2.2.2.2.2.2.1, h.2.2.2.2.2.2.2.2.2.1⟩

/-- C8: every externally visible report clamps remaining time at zero: the durable log
record's remaining field is exactly max 0 (limit minus total), hence never negative and
exactly zero once the total exceeds the limit; and whenever the renderer produces a
line at all, its remaining field equals limit minus total, is strictly positive, and
coincides with the clamped value (the renderer never renders once remaining is ≤ 0). -/
theorem c8_remaining_clamp (now : Int) (label : String) (s : DTS.Monitor)
    (line : DTS.ProgressLine) (s' : DTS.Monitor) :
    (DTS.log_activity now label s).remaining_time =
      max 0 (s.time_limit - s.total_active_time) ∧
    0 ≤ (DTS.log_activity now label s).remaining_time ∧
    (s.time_limit < s.total_active_time →
      (DTS.log_activity now label s).remaining_time = 0) ∧
    (DTS.draw_progress_iter s = some (line, s') →
      line.remaining = s.time_limit - s.total_active_time ∧
      0 < line.remaining ∧
      line.remaining = max 0 (s.time_limit - s.total_active_time)) := by
  refine ⟨rfl, ?_, ?_, ?_⟩
  · simp only [DTS.log_activity]
    exact le_max_left _ _
  · intro h
    simp only [DTS.log_activity]
    exact max_eq_left (by omega)
  · intro h
    simp only [DTS.draw_progress_iter] at h
    by_cases hr : s.running
    · rw [if_pos hr] at h
      by_cases hrem : s.time_limit - s.total_active_time ≤ 0
      · rw [if_pos hrem] at h
        exact absurd h (by simp)
      · rw [if_neg hrem] at h
        obtain ⟨hl, -⟩ := (Prod.mk.injEq _ _ _ _).mp (Option.some.inj h)
        subst hl
        refine ⟨rfl, ?_, ?_⟩
        · show 0 < s.time_limit - s.total_active_time
          omega
        · show s.time_limit - s.total_active_time = max 0 (s.time_limit - s.total_active_time)
          exact (max_eq_right (by omega)).symm
    · rw [if_neg hr] at h
      exact absurd h (by simp)

/-- C8 witness: a rendered line and a log record from the session renderMon, one third
of the way to its limit. -/
theorem c8_remaining_clamp_witness :
    DTS.draw_progress_iter renderMon =
      some (renderLine, { renderMon with is_active := false }) ∧
    renderLine.remaining = renderMon.time_limit - renderMon.total_active_time ∧
    0 < renderLine.remaining ∧
    renderLine.remaining = max 0 (renderMon.time_limit - renderMon.total_active_time) ∧
    (DTS.log_activity 5000000 "Regular Update" renderMon).remaining_time =
      max 0 (renderMon.time_limit - renderMon.total_active_time) := by
  have h := c8_remaining_clamp 5000000 "Regular Update" renderMon renderLine
    { renderMon with is_active := false }
  have hd : DTS.draw_progress_iter renderMon =
      some (renderLine, { renderMon with is_active := false }) := by
    norm_num [DTS.draw_progress_iter, renderMon, renderLine]
  obtain ⟨h1, h2, h3⟩ := h.2.2.2 hd
  exact ⟨hd, h1, h2, h3, h.1⟩

/-- C10: no division in the program can divide by zero: the activity-rate denominator
in every log record is at least 1 (the session duration in seconds is floored at 1),
and the renderer's progress division runs only in iterations whose remaining time is
strictly positive, which (with a non-negative total) forces a strictly positive limit;
in particular with the zero limit obtained by parsing the empty duration string the
dividing branch is unreachable: the renderer iteration yields none. -/
theorem c10_no_division_by_zero (now : Int) (label : String) (s : DTS.Monitor)
    (line : DTS.ProgressLine) (s' : DTS.Monitor) :
    (1 : Rat) ≤ (DTS.log_activity now label s).rate_denominator ∧
    (DTS.log_activity now label s).rate_denominator ≠ 0 ∧
    (0 ≤ s.total_active_time → DTS.draw_progress_iter s = some (line, s') →
      0 < s.time_limit) ∧
    (0 ≤ s.total_active_time → s.time_limit = 0 → DTS.draw_progress_iter s = none) ∧
    parse_time_limit "" = Except.ok 0 := by
  have hden : (1 : Rat) ≤ (DTS.log_activity now label s).rate_denominator := by
    simp only [DTS.log_activity]
    exact le_max_left _ _
  refine ⟨hden, ?_, ?_, ?_, rfl⟩
  · intro h0
    rw [h0] at hden
    norm_num at hden
  · intro hpos h
    simp only [DTS.draw_progress_iter] at h
    by_cases hr : s.running
    · rw [if_pos hr] at h
      by_cases hrem : s.time_limit - s.total_active_time ≤ 0
      · rw [if_pos hrem] at h
        exact absurd h (by simp)
      · omega
    · rw [if_neg hr] at h
      exact absurd h (by simp)
  · intro hpos hz
    simp only [DTS.draw_progress_iter]
    by_cases hr : s.running
    · rw [if_pos hr, if_pos (by omega)]
    · rw [if_neg hr]

/-- C10 witness: the division-safety facts at the session rateMon a quarter of the way
to its limit, with a rendered line present. -/
theorem c10_no_division_by_zero_witness :
    (0 ≤ rateMon.total_active_time ∧
     DTS.draw_progress_iter rateMon =
       some (rateLine, { rateMon with is_active := false })) ∧
    0 < rateMon.time_limit ∧
    (1 : Rat) ≤ (DTS.log_activity 1000000 "Session Started" rateMon).rate_denominator := by
  have h := c10_no_division_by_zero 1000000 "Session Started" rateMon rateLine
    { rateMon with is_active := false }
  have hd : DTS.draw_progress_iter rateMon =
      some (rateLine, { rateMon with is_active := false }) := by
    norm_num [DTS.draw_progress_iter, rateMon, rateLine]
  exact ⟨⟨by decide, hd⟩, h.2.2.1 (by decide) hd, h.1⟩
